import Mathlib

/-!
Verification of the resume-parser pipeline (`src/main.py`) against its
natural-language specification.

The development shallowly embeds the program: pure Python helpers become Lean
functions; the external collaborators (Google Drive download, `pdfplumber`,
`python-docx`, the Groq HTTP endpoint, `json.loads`, the asyncpg pool) are
modelled as components of an explicit environment record, so that every theorem
quantifies over their behaviour; Python exceptions become an explicit error
type threaded through `Except`.
-/

namespace ResumeParser

/-! ## Python string semantics -/

/-- Whitespace characters stripped by Python `str.strip()` (ASCII portion). -/
def pyIsSpace (c : Char) : Bool :=
  c = ' ' || c = '\t' || c = '\n' || c = '\r' || c = '\x0b' || c = '\x0c'

/-- Model of Python `str.strip()` on the character list: drop whitespace from
both ends. -/
def pyStripList (cs : List Char) : List Char :=
  ((cs.dropWhile pyIsSpace).reverse.dropWhile pyIsSpace).reverse

/-- Model of Python `str.strip()`. -/
def pyStrip (s : String) : String :=
  String.mk (pyStripList s.data)

/-- Model of Python `sep.join(l)`. -/
def pyJoin (sep : String) : List String → String
  | [] => ""
  | x :: rest =>
    match rest with
    | [] => x
    | _ :: _ => x ++ sep ++ pyJoin sep rest

/-! ## Python `bytes.decode(errors="ignore")` -/

/-- Bytes are modelled as natural numbers below 256. -/
abbrev Bytes := List Nat

/-- Valid UTF-8 continuation byte. -/
def utf8Cont (b : Nat) : Bool := 0x80 ≤ b && b ≤ 0xBF

/-- Range check for the second byte of a three-byte UTF-8 sequence (excludes
overlong encodings and surrogate code points). -/
def utf8Cont3 (b b2 : Nat) : Bool :=
  if b = 0xE0 then 0xA0 ≤ b2 && b2 ≤ 0xBF
  else if b = 0xED then 0x80 ≤ b2 && b2 ≤ 0x9F
  else utf8Cont b2

/-- Range check for the second byte of a four-byte UTF-8 sequence. -/
def utf8Cont4 (b b2 : Nat) : Bool :=
  if b = 0xF0 then 0x90 ≤ b2 && b2 ≤ 0xBF
  else if b = 0xF4 then 0x80 ≤ b2 && b2 ≤ 0x8F
  else utf8Cont b2

/-- Fuelled UTF-8 decoder with the `errors="ignore"` policy: decode valid
sequences, silently skip bytes that do not begin one (CPython drops the
maximal invalid subpart and continues). Every step consumes at least one
byte, so fuel `length + 1` always suffices; the fuel is structural so the
function computes by reduction. -/
def utf8DecodeIgnoreF : Nat → List Nat → List Char
  | 0, _ => []
  | _ + 1, [] => []
  | fuel + 1, b :: rest =>
    if b < 0x80 then Char.ofNat b :: utf8DecodeIgnoreF fuel rest
    else if 0xC2 ≤ b ∧ b ≤ 0xDF then
      match rest with
      | [] => []
      | b2 :: tail2 =>
        if utf8Cont b2 then
          Char.ofNat ((b - 0xC0) * 0x40 + (b2 - 0x80)) :: utf8DecodeIgnoreF fuel tail2
        else utf8DecodeIgnoreF fuel rest
    else if 0xE0 ≤ b ∧ b ≤ 0xEF then
      match rest with
      | [] => []
      | b2 :: tail2 =>
        if utf8Cont3 b b2 then
          match tail2 with
          | [] => []
          | b3 :: tail3 =>
            if utf8Cont b3 then
              Char.ofNat ((b - 0xE0) * 0x1000 + (b2 - 0x80) * 0x40 + (b3 - 0x80)) ::
                utf8DecodeIgnoreF fuel tail3
            else utf8DecodeIgnoreF fuel tail2
        else utf8DecodeIgnoreF fuel rest
    else if 0xF0 ≤ b ∧ b ≤ 0xF4 then
      match rest with
      | [] => []
      | b2 :: tail2 =>
        if utf8Cont4 b b2 then
          match tail2 with
          | [] => []
          | b3 :: tail3 =>
            if utf8Cont b3 then
              match tail3 with
              | [] => []
              | b4 :: tail4 =>
                if utf8Cont b4 then
                  Char.ofNat ((b - 0xF0) * 0x40000 + (b2 - 0x80) * 0x1000 +
                      (b3 - 0x80) * 0x40 + (b4 - 0x80)) :: utf8DecodeIgnoreF fuel tail4
                else utf8DecodeIgnoreF fuel tail3
            else utf8DecodeIgnoreF fuel tail2
        else utf8DecodeIgnoreF fuel rest
    else utf8DecodeIgnoreF fuel rest

/-- Model of Python `bytes.decode(errors="ignore")`. -/
def utf8DecodeIgnore (l : List Nat) : List Char :=
  utf8DecodeIgnoreF (l.length + 1) l

/-- Decoded string of a byte sequence under the lossy decode. -/
def strOfBytes (data : Bytes) : String :=
  String.mk (utf8DecodeIgnore data)

/-! ## Python `float()` on decimal strings -/

/-- Decimal digit test. -/
def isDigitChar (c : Char) : Bool := '0' ≤ c && c ≤ '9'

/-- Numeric value of a list of decimal digits, most significant first. -/
def digitsToNat (cs : List Char) : Nat :=
  cs.foldl (fun a c => a * 10 + (c.toNat - 48)) 0

/-- Parse an unsigned decimal literal `digits`, `digits.digits`, `digits.` or
`.digits` as a rational, the value Python `float()` denotes for it. -/
def pyFloatCore (cs : List Char) : Option ℚ :=
  match cs.span (fun c => c ≠ '.') with
  | (ip, []) =>
    if ip ≠ [] ∧ ip.all isDigitChar then some (digitsToNat ip) else none
  | (ip, _ :: fp) =>
    if (ip ≠ [] ∨ fp ≠ []) ∧ ip.all isDigitChar ∧ fp.all isDigitChar then
      some ((digitsToNat ip : ℚ) + (digitsToNat fp : ℚ) / (10 ^ fp.length))
    else none

/-- Model of Python `float(s)` on plain decimal notation: surrounding
whitespace is ignored and an optional sign precedes the digits; `none` models
the `ValueError` raised on any other input. -/
def pyFloat (s : String) : Option ℚ :=
  match (pyStrip s).data with
  | '+' :: r => pyFloatCore r
  | '-' :: r => (pyFloatCore r).map Neg.neg
  | r => pyFloatCore r

/-! ## Errors, JSON values, and the effect environment -/

/-- Python exceptions as seen by the pipeline: `httpExc` is a raised FastAPI
`HTTPException` with its status code and detail; `exc` is any other exception,
carrying its `str(e)` rendering. -/
inductive PyErr where
  | httpExc (status : Nat) (detail : String)
  | exc (msg : String)

/-- Rendering `str(e)`: Starlette's `HTTPException.__str__` yields
`"<status>: <detail>"`; a plain exception renders its message. -/
def strPyErr : PyErr → String
  | .httpExc status detail => toString status ++ ": " ++ detail
  | .exc msg => msg

/-- JSON values, the result type of `json.loads`. -/
inductive Json where
  | null
  | bool (b : Bool)
  | num (n : Int)
  | str (s : String)
  | arr (elems : List Json)
  | obj (fields : List (String × Json))

/-- First binding of a key in a JSON object (objects produced by `json.loads`
have distinct keys). -/
def jsonLookup : List (String × Json) → String → Option Json
  | [], _ => none
  | (k, v) :: rest, key => if k = key then some v else jsonLookup rest key

/-- Python `obj.get(key)`: `None`-returning lookup, raising `AttributeError`
when the receiver is not a dict. -/
def pyGet (j : Json) (key : String) : Except PyErr (Option Json) :=
  match j with
  | .obj fields => .ok (jsonLookup fields key)
  | _ => .error (.exc ("AttributeError: object has no attribute get (" ++ key ++ ")"))

/-- Python `obj.get(key, default)`. -/
def pyGetD (j : Json) (key : String) (default : Json) : Except PyErr Json :=
  (pyGet j key).map (fun o => o.getD default)

/-- Python `x[0]` on the value found at `"choices"`: list indexing, string
indexing, or a `TypeError`/`IndexError`. -/
def pyIndexZero : Json → Except PyErr Json
  | .arr (x :: _) => .ok x
  | .arr [] => .error (.exc "IndexError: list index out of range")
  | .str s =>
    match s.data with
    | c :: _ => .ok (.str (String.mk [c]))
    | [] => .error (.exc "IndexError: string index out of range")
  | _ => .error (.exc "TypeError: object is not subscriptable")

/-- Response of the Groq HTTP POST, as `httpx` exposes it: status code and
raw body text. -/
structure HttpResponse where
  status : Nat
  body : String

/-- Row inserted into the `resumes` table (`INSERT INTO resumes ...`),
with the values passed for each column. -/
structure Row where
  file_id : String
  name : Json
  email : Json
  phone : Json
  skills : Json
  experience : Json
  education : Json
  parsed_at : Nat

/-- Behaviour of the external collaborators, one field per outside call the
pipeline makes. `download` stands for the whole chunked
`MediaIoBaseDownload` loop (accumulated bytes, or the exception it raises);
`pdfOpen` stands for `pdfplumber.open` followed by `.extract_text()` on each
page in document order (`none` is a page with no text); `docxOpen` stands for
`docx.Document` paragraph texts in document order; `httpPost` is the Groq
endpoint POST given the user text and the timeout; `jsonLoads` is
`json.loads` / `r.json()`; `dbInsert` is the asyncpg INSERT; `now` is
`datetime.utcnow()`. -/
structure Env where
  download : String → Except PyErr Bytes
  pdfOpen : Bytes → Except PyErr (List (Option String))
  docxOpen : Bytes → Except PyErr (List String)
  httpPost : String → ℚ → Except PyErr HttpResponse
  jsonLoads : String → Except PyErr Json
  dbInsert : Row → Except PyErr Unit
  now : Nat

/-- Network / persistence calls a run actually performed, in order. -/
inductive Effect where
  | driveDownload (file_id : String)
  | groqPost (text : String) (timeout : ℚ)
  | dbWrite (row : Row)

/-- Request body of `POST /parse` (`ParseRequest` in the source). -/
structure ParseRequest where
  fileId : String
  mimeType : Option String

/-- Success value of `parse_resume`. -/
structure ParseResult where
  fileId : String
  parsedData : Json

/-! ## The extractors (`extract_text_from_*` in `src/main.py`) -/

/-- Embedding of `extract_text_from_pdf_bytes`: open the PDF, accumulate
`p.extract_text() or ""` over the pages with `+=`, and `strip()` the result.
A `pdfplumber` failure propagates. -/
def extract_text_from_pdf_bytes (env : Env) (data : Bytes) : Except PyErr String :=
  match env.pdfOpen data with
  | .error e => .error e
  | .ok pages => .ok (pyStrip (pages.foldl (fun text p => text ++ p.getD "") ""))

/-- Embedding of `extract_text_from_docx_bytes`: join the non-empty paragraph
texts with `"\n"` and `strip()` the result. A `python-docx` failure
propagates. -/
def extract_text_from_docx_bytes (env : Env) (data : Bytes) : Except PyErr String :=
  match env.docxOpen data with
  | .error e => .error e
  | .ok paras => .ok (pyStrip (pyJoin "\n" (paras.filter (fun p => p ≠ ""))))

/-- Embedding of `extract_text_from_bytes`: dispatch on the MIME hint alone —
`application/pdf` to the PDF branch, the two Word types to the DOCX branch,
anything else to `data.decode(errors="ignore")` (whose `except` arm is
unreachable since the lossy decode is total). -/
def extract_text_from_bytes (env : Env) (data : Bytes) (mime_type : Option String) :
    Except PyErr String :=
  if mime_type = some "application/pdf" then
    extract_text_from_pdf_bytes env data
  else if mime_type = some "application/vnd.openxmlformats-officedocument.wordprocessingml.document"
      ∨ mime_type = some "application/msword" then
    extract_text_from_docx_bytes env data
  else
    .ok (strOfBytes data)

/-! ## The inference client (`call_groq_api`) -/

/-- Embedding of the body of `call_groq_api`: POST to the endpoint, raise
`HTTPException(r.status_code, r.text)` on a non-200 status, parse the body
with `r.json()`, navigate `data.get("choices", [dict()])[0].get("message",
dict()).get("content")`, and `json.loads` the content string. -/
def call_groq_api (env : Env) (cv_text : String) (timeout : ℚ) : Except PyErr Json :=
  match env.httpPost cv_text timeout with
  | .error e => .error e
  | .ok r =>
    if r.status ≠ 200 then .error (.httpExc r.status r.body)
    else
      match env.jsonLoads r.body with
      | .error e => .error e
      | .ok data =>
        match pyGetD data "choices" (Json.arr [Json.obj []]) with
        | .error e => .error e
        | .ok choices =>
          match pyIndexZero choices with
          | .error e => .error e
          | .ok first =>
            match pyGetD first "message" (Json.obj []) with
            | .error e => .error e
            | .ok msg =>
              match pyGet msg "content" with
              | .error e => .error e
              | .ok (some (.str content)) => env.jsonLoads content
              | .ok (some _) =>
                .error (.exc "TypeError: the JSON object must be str, bytes or bytearray")
              | .ok none =>
                .error (.exc "TypeError: the JSON object must be str, bytes or bytearray, not NoneType")

/-! ## The orchestrator (`parse_resume`) -/

/-- Embedding of line 142, `float(request.headers.get("X-API-Timeout", 30.0))`:
the fixed default applies when the header is absent; a present header is
parsed by `float`, whose `ValueError` is modelled as `.exc`. -/
def resolveTimeout (headers : String → Option String) : Except PyErr ℚ :=
  match headers "X-API-Timeout" with
  | none => .ok 30
  | some s =>
    match pyFloat s with
    | some q => .ok q
    | none => .error (.exc ("could not convert string to float: " ++ s))

/-- Re-raise performed by the blanket handler
`except Exception as e: raise HTTPException(status_code=500, detail=str(e))`. -/
def wrap500 (e : PyErr) : PyErr := .httpExc 500 (strPyErr e)

/-- Arguments of the `INSERT INTO resumes` statement: `.get` with `None`
defaults for the scalar columns and empty-list defaults for the array columns.
Fails (with the pipeline's `AttributeError`) when `parsed` is not a dict. -/
def buildRow (file_id : String) (parsed : Json) (now : Nat) : Except PyErr Row :=
  match parsed with
  | .obj fields =>
    .ok ⟨file_id,
      (jsonLookup fields "name").getD Json.null,
      (jsonLookup fields "email").getD Json.null,
      (jsonLookup fields "phone").getD Json.null,
      (jsonLookup fields "skills").getD (Json.arr []),
      (jsonLookup fields "experience").getD (Json.arr []),
      (jsonLookup fields "education").getD (Json.arr []),
      now⟩
  | _ => .error (.exc "AttributeError: object has no attribute get (name)")

/-- Embedding of the `/parse` handler `parse_resume`. Returns the outcome the
caller observes together with the ordered list of external calls performed.
Statement order follows the source: the empty-`fileId` guard and the timeout
parse run before the `try` block, so their exceptions are not re-wrapped; every
exception raised inside the `try` block — the download, the extractor, the
deliberate 400 on empty text, and the inference client — is re-raised as
`HTTPException(500, str(e))`; the persistence attempt is wrapped in
`except Exception: pass`, so its outcome influences nothing. -/
def parse_resume (env : Env) (req : ParseRequest) (headers : String → Option String) :
    Except PyErr ParseResult × List Effect :=
  if req.fileId = "" then
    (.error (.httpExc 400 "fileId required"), [])
  else
    match resolveTimeout headers with
    | .error e => (.error e, [])
    | .ok api_timeout =>
      match env.download req.fileId with
      | .error e => (.error (wrap500 e), [.driveDownload req.fileId])
      | .ok file_bytes =>
        match extract_text_from_bytes env file_bytes req.mimeType with
        | .error e => (.error (wrap500 e), [.driveDownload req.fileId])
        | .ok cv_text =>
          if pyStrip cv_text = "" then
            (.error (wrap500 (.httpExc 400 "Could not extract text from file")),
              [.driveDownload req.fileId])
          else
            match call_groq_api env cv_text api_timeout with
            | .error e =>
              (.error (wrap500 e),
                [.driveDownload req.fileId, .groqPost cv_text api_timeout])
            | .ok parsed =>
              match buildRow req.fileId parsed env.now with
              | .error _ =>
                (.ok ⟨req.fileId, parsed⟩,
                  [.driveDownload req.fileId, .groqPost cv_text api_timeout])
              | .ok row =>
                match env.dbInsert row with
                | _ =>
                  (.ok ⟨req.fileId, parsed⟩,
                    [.driveDownload req.fileId, .groqPost cv_text api_timeout, .dbWrite row])

/-! ## Spec-side definitions -/

/-- Suffix test on strings, used by the spec-side dispatch model. -/
def endsWithExt (n ext : String) : Bool :=
  ext.data.isSuffixOf n.data

/-- Extension test on an optional source name. -/
def nameEnds (srcName : Option String) (ext : String) : Bool :=
  match srcName with
  | some n => endsWithExt n ext
  | none => false

/-- Modelled from the spec: the Format Extractor contract of §4.1 takes a
`sourceNameHint` and dispatches to the PDF branch when the MIME hint is the
canonical PDF type **or the source name ends in the PDF extension**, and to the
DOCX branch when the MIME hint matches either Word type or the name ends in
`.docx`/`.doc`. The repository's `extract_text_from_bytes` has no such
parameter; this definition exists to be compared against it. -/
def extractByHintOrName (env : Env) (data : Bytes) (mime : Option String)
    (srcName : Option String) : Except PyErr String :=
  if mime = some "application/pdf" ∨ nameEnds srcName ".pdf" then
    extract_text_from_pdf_bytes env data
  else if (mime = some "application/vnd.openxmlformats-officedocument.wordprocessingml.document"
      ∨ mime = some "application/msword")
      ∨ nameEnds srcName ".docx" ∨ nameEnds srcName ".doc" then
    extract_text_from_docx_bytes env data
  else
    .ok (strOfBytes data)

/-- Inference response body whose single choice carries `content` as its
message content, the shape `call_groq_api` navigates. -/
def mkChoices (content : String) : Json :=
  Json.obj [("choices",
    Json.arr [Json.obj [("message", Json.obj [("content", Json.str content)])]])]

/-! ## Concrete environments used by witnesses and counterexamples -/

/-- Environment whose blob store returns zero bytes for every identifier. -/
def zeroEnv : Env :=
  ⟨fun _ => .ok [],
   fun _ => .error (.exc "pdf parse error"),
   fun _ => .error (.exc "docx parse error"),
   fun _ _ => .ok ⟨200, "unused"⟩,
   fun _ => .error (.exc "json decode error"),
   fun _ => .ok (),
   0⟩

/-- Environment for a fully successful run: the store holds the bytes of
`"Hi"` under `"resume1"`, the PDF library yields three pages, the inference
endpoint answers 200 with a body that navigates to the record
`obj [name ↦ "Ada"]`, and the persistence store is unreachable. -/
def happyEnv : Env :=
  ⟨fun fid => if fid = "resume1" then .ok [72, 105] else .error (.exc "HttpError 404"),
   fun _ => .ok [some "Hello ", none, some "world"],
   fun _ => .ok ["Intro", "", "Body"],
   fun _ _ => .ok ⟨200, "groq-body"⟩,
   fun s =>
     if s = "groq-body" then .ok (mkChoices "inner")
     else if s = "inner" then .ok (Json.obj [("name", Json.str "Ada")])
     else .error (.exc "json decode error"),
   fun _ => .error (.exc "connection refused"),
   1700000000⟩

/-- Environment whose PDF parser succeeds on anything with one page reading
`"PDFTEXT"`, used to separate the two dispatch models. -/
def pdfStubEnv : Env :=
  ⟨fun _ => .ok [82, 65, 87],
   fun _ => .ok [some "PDFTEXT"],
   fun _ => .error (.exc "docx parse error"),
   fun _ _ => .ok ⟨200, "unused"⟩,
   fun _ => .error (.exc "json decode error"),
   fun _ => .ok (),
   0⟩

/-- Environment whose inference endpoint answers 429 with body
`"rate limited"`; the store holds the bytes of `"CV"`. -/
def groq429Env : Env :=
  ⟨fun _ => .ok [67, 86],
   fun _ => .error (.exc "pdf parse error"),
   fun _ => .error (.exc "docx parse error"),
   fun _ _ => .ok ⟨429, "rate limited"⟩,
   fun _ => .error (.exc "json decode error"),
   fun _ => .ok (),
   0⟩

/-- Record with none of the six schema fields, used to show pass-through. -/
def oddRecord : Json :=
  Json.obj [("unexpected", Json.num 7)]

/-- Environment whose inference response navigates to `oddRecord`. -/
def oddEnv : Env :=
  ⟨fun _ => .ok [67, 86],
   fun _ => .error (.exc "pdf parse error"),
   fun _ => .error (.exc "docx parse error"),
   fun _ _ => .ok ⟨200, "outer-body"⟩,
   fun s =>
     if s = "outer-body" then .ok (mkChoices "inner-body")
     else if s = "inner-body" then .ok oddRecord
     else .error (.exc "json decode error"),
   fun _ => .ok (),
   0⟩

/-! ## Helper lemmas about stripping -/

theorem dropWhile_idem (p : Char → Bool) (xs : List Char) :
    (xs.dropWhile p).dropWhile p = xs.dropWhile p := by
  induction xs with
  | nil => rfl
  | cons a l ih =>
    by_cases h : p a = true
    · simp [List.dropWhile_cons, h, ih]
    · simp [List.dropWhile_cons, h]

theorem dropWhile_head_false (p : Char → Bool) (xs : List Char) (y : Char) (ys : List Char)
    (h : xs.dropWhile p = y :: ys) : p y = false := by
  induction xs with
  | nil => simp [List.dropWhile] at h
  | cons a l ih =>
    rw [List.dropWhile_cons] at h
    by_cases hp : p a = true
    · rw [if_pos hp] at h
      exact ih h
    · rw [if_neg hp] at h
      injection h with h1 _
      subst h1
      simpa using hp

theorem dropWhile_eq_self (p : Char → Bool) (xs : List Char)
    (h : ∀ y ys, xs = y :: ys → p y = false) : xs.dropWhile p = xs := by
  cases xs with
  | nil => rfl
  | cons a l => simp [List.dropWhile_cons, h a l rfl]

theorem exists_append_dropWhile (p : Char → Bool) (xs : List Char) :
    ∃ t, t ++ xs.dropWhile p = xs := by
  induction xs with
  | nil => exact ⟨[], rfl⟩
  | cons a l ih =>
    by_cases hp : p a = true
    · obtain ⟨t, ht⟩ := ih
      exact ⟨a :: t, by simp [List.dropWhile_cons, hp, ht]⟩
    · exact ⟨[], by simp [List.dropWhile_cons, hp]⟩

theorem pyStripList_head_false (xs : List Char) (y : Char) (ys : List Char)
    (h : pyStripList xs = y :: ys) : pyIsSpace y = false := by
  unfold pyStripList at h
  obtain ⟨t, ht⟩ := exists_append_dropWhile pyIsSpace (xs.dropWhile pyIsSpace).reverse
  have hu : xs.dropWhile pyIsSpace =
      ((xs.dropWhile pyIsSpace).reverse.dropWhile pyIsSpace).reverse ++ t.reverse := by
    have h2 := congrArg List.reverse ht
    simpa [List.reverse_append] using h2.symm
  rw [h] at hu
  exact dropWhile_head_false pyIsSpace xs y (ys ++ t.reverse) (by simpa using hu)

theorem pyStripList_idem (xs : List Char) :
    pyStripList (pyStripList xs) = pyStripList xs := by
  have h1 : (pyStripList xs).dropWhile pyIsSpace = pyStripList xs :=
    dropWhile_eq_self pyIsSpace (pyStripList xs)
      (fun y ys hy => pyStripList_head_false xs y ys hy)
  have h2 : (pyStripList xs).reverse.dropWhile pyIsSpace = (pyStripList xs).reverse := by
    apply dropWhile_eq_self
    intro y ys hy
    have h3 : ((xs.dropWhile pyIsSpace).reverse).dropWhile pyIsSpace = y :: ys := by
      simpa [pyStripList, List.reverse_reverse] using hy
    exact dropWhile_head_false pyIsSpace (xs.dropWhile pyIsSpace).reverse y ys h3
  show ((((pyStripList xs).dropWhile pyIsSpace).reverse).dropWhile pyIsSpace).reverse
      = pyStripList xs
  rw [h1, h2, List.reverse_reverse]

theorem pyStrip_idem (s : String) : pyStrip (pyStrip s) = pyStrip s := by
  show String.mk (pyStripList (String.mk (pyStripList s.data)).data) = pyStrip s
  rw [show (String.mk (pyStripList s.data)).data = pyStripList s.data from rfl,
    pyStripList_idem]
  rfl

/-! ## Helper lemmas about joining and concatenation -/

theorem foldl_string_append (l : List String) : ∀ a : String,
    l.foldl (· ++ ·) a = a ++ String.join l := by
  induction l with
  | nil =>
    intro a
    rw [List.foldl_nil]
    show a = a ++ ""
    rw [String.append_empty]
  | cons x t ih =>
    intro a
    rw [List.foldl_cons, ih]
    have hx : String.join (x :: t) = x ++ String.join t := by
      show List.foldl (· ++ ·) "" (x :: t) = x ++ String.join t
      rw [List.foldl_cons, ih ("" ++ x), String.empty_append]
    rw [hx, String.append_assoc]

theorem string_join_cons (x : String) (t : List String) :
    String.join (x :: t) = x ++ String.join t := by
  show List.foldl (· ++ ·) "" (x :: t) = x ++ String.join t
  rw [List.foldl_cons, foldl_string_append, String.empty_append]

theorem pdf_fold_eq_join (pages : List (Option String)) :
    pages.foldl (fun text p => text ++ p.getD "") "" =
      String.join (pages.map (fun p => p.getD "")) := by
  rw [← List.foldl_map, foldl_string_append, String.empty_append]

theorem pyJoin_eq_join_intersperse (sep : String) (l : List String) :
    pyJoin sep l = String.join (l.intersperse sep) := by
  induction l with
  | nil => rfl
  | cons x t ih =>
    cases t with
    | nil =>
      show x = String.join [x]
      rw [string_join_cons]
      show x = x ++ ""
      rw [String.append_empty]
    | cons y rest =>
      show x ++ sep ++ pyJoin sep (y :: rest) = String.join ((x :: y :: rest).intersperse sep)
      rw [List.intersperse_cons_cons, string_join_cons, string_join_cons, ih,
        String.append_assoc]

/-! ## Helper lemmas about the pipeline -/

theorem call_groq_api_ok (env : Env) (t : String) (q : ℚ) (body c : String) (parsed : Json)
    (hpost : env.httpPost t q = .ok ⟨200, body⟩)
    (hbody : env.jsonLoads body = .ok (mkChoices c))
    (hcontent : env.jsonLoads c = .ok parsed) :
    call_groq_api env t q = .ok parsed := by
  unfold call_groq_api
  rw [hpost]
  simp [mkChoices, hbody, hcontent, pyGetD, pyGet, pyIndexZero, jsonLookup, Except.map]

theorem parse_resume_fst_ok (env : Env) (req : ParseRequest) (headers : String → Option String)
    (q : ℚ) (bs : Bytes) (t : String) (parsed : Json)
    (hfid : req.fileId ≠ "")
    (htm : resolveTimeout headers = .ok q)
    (hdl : env.download req.fileId = .ok bs)
    (hex : extract_text_from_bytes env bs req.mimeType = .ok t)
    (hne : pyStrip t ≠ "")
    (hgq : call_groq_api env t q = .ok parsed) :
    (parse_resume env req headers).fst = .ok ⟨req.fileId, parsed⟩ := by
  simp only [parse_resume, htm, hdl, hex, hgq, if_neg hfid, if_neg hne]
  cases hbr : buildRow req.fileId parsed env.now with
  | error e => rfl
  | ok row => cases env.dbInsert row with
    | error e => rfl
    | ok u => rfl

theorem extract_pdf_trimmed (env : Env) (data : Bytes) (s : String)
    (h : extract_text_from_pdf_bytes env data = .ok s) : pyStrip s = s := by
  unfold extract_text_from_pdf_bytes at h
  cases hp : env.pdfOpen data with
  | error e => simp [hp] at h
  | ok pages =>
    simp only [hp, Except.ok.injEq] at h
    rw [← h]
    exact pyStrip_idem _

theorem extract_docx_trimmed (env : Env) (data : Bytes) (s : String)
    (h : extract_text_from_docx_bytes env data = .ok s) : pyStrip s = s := by
  unfold extract_text_from_docx_bytes at h
  cases hp : env.docxOpen data with
  | error e => simp [hp] at h
  | ok paras =>
    simp only [hp, Except.ok.injEq] at h
    rw [← h]
    exact pyStrip_idem _

/-! ## Claims -/

/-- C1: the code contradicts the claim that empty extracted text yields a
400-class "no text extracted" error distinguishable by status code from
upstream failures. On a valid fileId whose downloaded content is zero bytes
the handler does raise `HTTPException(400, "Could not extract text from
file")`, but the blanket `except Exception` re-raises it as
`HTTPException(500, str(e))`: the caller receives status 500 — the same class
as transport failures — with the intended 400 surviving only inside the detail
string. -/
theorem no_text_extracted_rewrapped_as_500 :
    parse_resume zeroEnv ⟨"valid-id", none⟩ (fun _ => none) =
      (.error (.httpExc 500 "400: Could not extract text from file"),
        [.driveDownload "valid-id"]) := rfl

/-- C2: a request with an empty file identifier fails with the typed 400
`"fileId required"` error, raised before the `try` block and therefore not
re-wrapped, and the effect trace is empty: no retrieval, inference, or
persistence call is attempted, whatever the environment. -/
theorem empty_fileId_fails_before_network (env : Env) (mime : Option String)
    (headers : String → Option String) :
    parse_resume env ⟨"", mime⟩ headers =
      (.error (.httpExc 400 "fileId required"), []) := rfl

/-- Witness for C2 at a concrete environment and header map. -/
theorem empty_fileId_fails_before_network_witness :
    parse_resume happyEnv ⟨"", none⟩ (fun _ => none) =
      (.error (.httpExc 400 "fileId required"), []) :=
  empty_fileId_fails_before_network happyEnv none (fun _ => none)

/-- C3: when a run reaches a successful inference result and every persistence
write raises (the store is unreachable), the error is absorbed by the inner
`except Exception: pass` and the caller still receives the successful
`(fileId, parsedData)` outcome. Since `env.dbInsert` is otherwise
unconstrained, the conclusion holds for every persistence behaviour. -/
theorem persistence_failure_invisible (env : Env) (req : ParseRequest)
    (headers : String → Option String) (q : ℚ) (bs : Bytes) (t : String) (parsed : Json)
    (e : PyErr)
    (hfid : req.fileId ≠ "")
    (htm : resolveTimeout headers = .ok q)
    (hdl : env.download req.fileId = .ok bs)
    (hex : extract_text_from_bytes env bs req.mimeType = .ok t)
    (hne : pyStrip t ≠ "")
    (hgq : call_groq_api env t q = .ok parsed)
    (_hdb : ∀ row, env.dbInsert row = .error e) :
    (parse_resume env req headers).fst = .ok ⟨req.fileId, parsed⟩ :=
  parse_resume_fst_ok env req headers q bs t parsed hfid htm hdl hex hne hgq

/-- Witness for C3: in `happyEnv` the persistence store always raises
`"connection refused"`, yet `parse` returns the parsed record. -/
theorem persistence_failure_invisible_witness :
    ("resume1" : String) ≠ "" ∧
    resolveTimeout (fun _ => none) = .ok 30 ∧
    happyEnv.download "resume1" = .ok [72, 105] ∧
    extract_text_from_bytes happyEnv [72, 105] none = .ok "Hi" ∧
    pyStrip "Hi" ≠ "" ∧
    call_groq_api happyEnv "Hi" 30 = .ok (Json.obj [("name", Json.str "Ada")]) ∧
    (∀ row, happyEnv.dbInsert row = .error (.exc "connection refused")) ∧
    (parse_resume happyEnv ⟨"resume1", none⟩ (fun _ => none)).fst =
      .ok ⟨"resume1", Json.obj [("name", Json.str "Ada")]⟩ :=
  ⟨by decide, rfl, rfl, rfl, by decide, rfl, fun _ => rfl,
    persistence_failure_invisible happyEnv ⟨"resume1", none⟩ (fun _ => none) 30 [72, 105]
      "Hi" (Json.obj [("name", Json.str "Ada")]) (.exc "connection refused")
      (by decide) rfl rfl rfl (by decide) rfl (fun _ => rfl)⟩

/-- C4 counterexample: the claim that every dispatch branch returns a trimmed
string fails on the plain-text fallback. For the bytes of `" hi "` with no
MIME hint, the fallback returns the lossy-decoded string verbatim, with its
surrounding whitespace intact. -/
theorem fallback_untrimmed_counterexample :
    extract_text_from_bytes zeroEnv [32, 104, 105, 32] none = .ok " hi " ∧
    pyStrip " hi " ≠ " hi " :=
  ⟨rfl, by decide⟩

/-- C4 (amended): the PDF and DOCX branches return trimmed strings, but the
plain-text fallback returns `data.decode(errors="ignore")` with no trimming
applied. -/
theorem extract_trimmed_except_fallback (env : Env) (data : Bytes) (mime : Option String)
    (s : String) (hok : extract_text_from_bytes env data mime = .ok s) :
    ((mime = some "application/pdf" ∨
      mime = some "application/vnd.openxmlformats-officedocument.wordprocessingml.document" ∨
      mime = some "application/msword") → pyStrip s = s) ∧
    ((mime ≠ some "application/pdf" ∧
      mime ≠ some "application/vnd.openxmlformats-officedocument.wordprocessingml.document" ∧
      mime ≠ some "application/msword") → s = strOfBytes data) := by
  constructor
  · intro hm
    unfold extract_text_from_bytes at hok
    rcases hm with h | h | h
    · rw [if_pos h] at hok
      exact extract_pdf_trimmed env data s hok
    · rw [if_neg (by simp [h]), if_pos (Or.inl h)] at hok
      exact extract_docx_trimmed env data s hok
    · rw [if_neg (by simp [h]), if_pos (Or.inr h)] at hok
      exact extract_docx_trimmed env data s hok
  · intro hm
    unfold extract_text_from_bytes at hok
    rw [if_neg hm.1, if_neg (not_or.mpr ⟨hm.2.1, hm.2.2⟩)] at hok
    injection hok with h
    exact h.symm

/-- Witness for C4 (amended) at the PDF branch of `happyEnv`. -/
theorem extract_trimmed_except_fallback_witness :
    extract_text_from_bytes happyEnv [9] (some "application/pdf") = .ok "Hello world" ∧
    pyStrip "Hello world" = "Hello world" :=
  ⟨rfl, (extract_trimmed_except_fallback happyEnv [9] (some "application/pdf")
    "Hello world" rfl).1 (Or.inl rfl)⟩

/-- C5 counterexample: the claim that the filename extension alone selects the
PDF branch fails on the code, whose extractor takes no source-name parameter.
With no MIME hint and a source named `resume.pdf`, the spec-side dispatch
parses as PDF (yielding the page text) while the code's extractor falls back
to the plain-text decode of the raw bytes. -/
theorem extension_dispatch_counterexample :
    extractByHintOrName pdfStubEnv [82, 65, 87] none (some "resume.pdf") = .ok "PDFTEXT" ∧
    extract_text_from_bytes pdfStubEnv [82, 65, 87] none = .ok "RAW" ∧
    ("PDFTEXT" : String) ≠ "RAW" :=
  ⟨rfl, rfl, by decide⟩

/-- C5 (amended): dispatch is driven by the MIME hint alone. A hint equal to
the canonical PDF type selects the PDF parser, and any hint matching none of
the three recognised types falls through to the plain-text decode — there is
no source-name parameter, so a PDF filename extension cannot select the PDF
branch. -/
theorem mime_only_dispatch (env : Env) (data : Bytes) (mime : Option String)
    (h1 : mime ≠ some "application/pdf")
    (h2 : mime ≠ some "application/vnd.openxmlformats-officedocument.wordprocessingml.document")
    (h3 : mime ≠ some "application/msword") :
    extract_text_from_bytes env data mime = .ok (strOfBytes data) ∧
    extract_text_from_bytes env data (some "application/pdf") =
      extract_text_from_pdf_bytes env data := by
  constructor
  · unfold extract_text_from_bytes
    rw [if_neg h1, if_neg (not_or.mpr ⟨h2, h3⟩)]
  · unfold extract_text_from_bytes
    rw [if_pos rfl]

/-- Witness for C5 (amended) at a `text/plain` hint. -/
theorem mime_only_dispatch_witness :
    (some "text/plain" ≠ some "application/pdf") ∧
    (some "text/plain" ≠
      some "application/vnd.openxmlformats-officedocument.wordprocessingml.document") ∧
    (some "text/plain" ≠ some "application/msword") ∧
    (extract_text_from_bytes pdfStubEnv [82, 65, 87] (some "text/plain") =
        .ok (strOfBytes [82, 65, 87]) ∧
      extract_text_from_bytes pdfStubEnv [82, 65, 87] (some "application/pdf") =
        extract_text_from_pdf_bytes pdfStubEnv [82, 65, 87]) :=
  ⟨by decide, by decide, by decide,
    mime_only_dispatch pdfStubEnv [82, 65, 87] (some "text/plain")
      (by decide) (by decide) (by decide)⟩

/-- C6: for a PDF input whose pages parse and whose per-page texts, concatenated
in page order with no separator (missing page text contributing the empty
string), are non-empty after trimming, extraction returns exactly that trimmed
concatenation, which is non-empty and trimmed. -/
theorem pdf_extraction_concat (env : Env) (data : Bytes) (pages : List (Option String))
    (hpdf : env.pdfOpen data = .ok pages)
    (hne : pyStrip (String.join (pages.map (fun p => p.getD ""))) ≠ "") :
    extract_text_from_bytes env data (some "application/pdf") =
      .ok (pyStrip (String.join (pages.map (fun p => p.getD "")))) ∧
    pyStrip (String.join (pages.map (fun p => p.getD ""))) ≠ "" ∧
    pyStrip (pyStrip (String.join (pages.map (fun p => p.getD "")))) =
      pyStrip (String.join (pages.map (fun p => p.getD ""))) := by
  refine ⟨?_, hne, pyStrip_idem _⟩
  have h1 : extract_text_from_bytes env data (some "application/pdf") =
      extract_text_from_pdf_bytes env data := rfl
  rw [h1]
  unfold extract_text_from_pdf_bytes
  simp only [hpdf]
  rw [pdf_fold_eq_join]

/-- Witness for C6 at the three-page PDF of `happyEnv`. -/
theorem pdf_extraction_concat_witness :
    happyEnv.pdfOpen [9] = .ok [some "Hello ", none, some "world"] ∧
    pyStrip (String.join ([some "Hello ", none, some "world"].map (fun p => p.getD ""))) ≠ "" ∧
    extract_text_from_bytes happyEnv [9] (some "application/pdf") =
      .ok (pyStrip (String.join ([some "Hello ", none, some "world"].map (fun p => p.getD "")))) :=
  ⟨rfl, by decide,
    (pdf_extraction_concat happyEnv [9] [some "Hello ", none, some "world"] rfl (by decide)).1⟩

/-- C7: for a DOCX input (either Word MIME type) whose paragraphs parse,
extraction returns the paragraphs with empty ones removed, interspersed with
single newlines in document order, and the result trimmed. -/
theorem docx_extraction_join (env : Env) (data : Bytes) (paras : List String) (m : String)
    (hm : m = "application/vnd.openxmlformats-officedocument.wordprocessingml.document"
      ∨ m = "application/msword")
    (hdocx : env.docxOpen data = .ok paras) :
    extract_text_from_bytes env data (some m) =
      .ok (pyStrip (String.join ((paras.filter (fun p => p ≠ "")).intersperse "\n"))) := by
  have hpdf : (some m : Option String) ≠ some "application/pdf" := by
    rcases hm with h | h <;> subst h <;> decide
  unfold extract_text_from_bytes
  rw [if_neg hpdf,
    if_pos (hm.imp (fun h => by rw [h]) (fun h => by rw [h]))]
  unfold extract_text_from_docx_bytes
  simp only [hdocx]
  rw [pyJoin_eq_join_intersperse]

/-- Witness for C7 at the paragraph list `["Intro", "", "Body"]`. -/
theorem docx_extraction_join_witness :
    (("application/msword" : String) =
        "application/vnd.openxmlformats-officedocument.wordprocessingml.document" ∨
      ("application/msword" : String) = "application/msword") ∧
    happyEnv.docxOpen [9] = .ok ["Intro", "", "Body"] ∧
    extract_text_from_bytes happyEnv [9] (some "application/msword") =
      .ok (pyStrip (String.join ((["Intro", "", "Body"].filter (fun p => p ≠ "")).intersperse "\n"))) :=
  ⟨Or.inr rfl, rfl,
    docx_extraction_join happyEnv [9] ["Intro", "", "Body"] "application/msword" (Or.inr rfl) rfl⟩

/-- C8: the code contradicts the claim that a non-success endpoint status is
surfaced to the caller as an error carrying that status and the raw body.
`call_groq_api` does raise `HTTPException(r.status_code, r.text)` — and there
is no retry: the effect trace holds exactly one inference call — but the
orchestrator's blanket handler re-raises it as status 500, with the endpoint
status and body surviving only stringified inside the detail. -/
theorem upstream_status_rewrapped_as_500 :
    parse_resume groq429Env ⟨"f1", none⟩ (fun _ => none) =
      (.error (.httpExc 500 "429: rate limited"),
        [.driveDownload "f1", .groqPost "CV" 30]) := rfl

/-- C9 counterexample: the claim that parsing the supplied timeout value never
fails the request outside the typed-error path is false. A non-numeric
`X-API-Timeout` header makes `float(...)` — evaluated before the `try` block —
raise an unhandled `ValueError`: the outcome is a plain exception, not a typed
`HTTPException`, and no stage runs. -/
theorem timeout_parse_unhandled_counterexample :
    parse_resume zeroEnv ⟨"f1", none⟩
        (fun k => if k = "X-API-Timeout" then some "abc" else none) =
      (.error (.exc "could not convert string to float: abc"), []) := rfl

/-- C9 (amended): the timeout has the fixed default 30.0 when the header is
absent; a parsable header value is passed through to the inference call
unmodified, with no bound enforced; a malformed value raises an unhandled
error before any network call, outside the typed-error path; and on runs
reaching inference the effect trace shows the download keyed by the file
identifier alone and exactly the parsed timeout governing the inference
call. -/
theorem timeout_default_passthrough_unbounded (env : Env) (req : ParseRequest)
    (headers : String → Option String)
    (hfid : req.fileId ≠ "") :
    (headers "X-API-Timeout" = none → resolveTimeout headers = .ok 30) ∧
    (∀ s q, headers "X-API-Timeout" = some s → pyFloat s = some q →
      resolveTimeout headers = .ok q) ∧
    (∀ s, headers "X-API-Timeout" = some s → pyFloat s = none →
      parse_resume env req headers =
        (.error (.exc ("could not convert string to float: " ++ s)), [])) ∧
    (∀ q bs t, resolveTimeout headers = .ok q → env.download req.fileId = .ok bs →
      extract_text_from_bytes env bs req.mimeType = .ok t → pyStrip t ≠ "" →
      ∃ rest, (parse_resume env req headers).snd =
        .driveDownload req.fileId :: .groqPost t q :: rest) := by
  refine ⟨?_, ?_, ?_, ?_⟩
  · intro h
    simp only [resolveTimeout, h]
  · intro s q hs hq
    simp only [resolveTimeout, hs, hq]
  · intro s hs hnone
    simp only [parse_resume, if_neg hfid, resolveTimeout, hs, hnone]
  · intro q bs t htm hdl hex hne
    cases hc : call_groq_api env t q with
    | error e =>
      exact ⟨[], by simp [parse_resume, htm, hdl, hex, hne, hfid, hc]⟩
    | ok parsed =>
      cases hbr : buildRow req.fileId parsed env.now with
      | error e2 =>
        exact ⟨[], by simp [parse_resume, htm, hdl, hex, hne, hfid, hc, hbr]⟩
      | ok row =>
        cases hdbi : env.dbInsert row with
        | error e3 =>
          exact ⟨[.dbWrite row],
            by simp [parse_resume, htm, hdl, hex, hne, hfid, hc, hbr, hdbi]⟩
        | ok u =>
          exact ⟨[.dbWrite row],
            by simp [parse_resume, htm, hdl, hex, hne, hfid, hc, hbr, hdbi]⟩

/-- Witness for C9 (amended): the header value `"60"` — double the claimed
fixed default — reaches the resolved timeout as exactly 60. -/
theorem timeout_default_passthrough_unbounded_witness :
    ("resume1" : String) ≠ "" ∧
    ((fun k => if k = "X-API-Timeout" then some "60" else none) "X-API-Timeout"
      = some "60") ∧
    pyFloat "60" = some (60 : ℚ) ∧
    resolveTimeout (fun k => if k = "X-API-Timeout" then some "60" else none) =
      .ok (60 : ℚ) :=
  ⟨by decide, rfl, by decide,
    (timeout_default_passthrough_unbounded happyEnv ⟨"resume1", none⟩
        (fun k => if k = "X-API-Timeout" then some "60" else none) (by decide)).2.1
      "60" 60 rfl (by decide)⟩

/-- C10: on a successful run the record returned to the caller is exactly the
JSON value `json.loads` produced from the message content — whatever its
shape, unvalidated and unchanged — while the empty-list defaults for the
array columns are applied only in the row built for the persistence write. -/
theorem parsed_data_passthrough (env : Env) (req : ParseRequest)
    (headers : String → Option String) (q : ℚ) (bs : Bytes) (t body c : String)
    (parsed : Json)
    (hfid : req.fileId ≠ "")
    (htm : resolveTimeout headers = .ok q)
    (hdl : env.download req.fileId = .ok bs)
    (hex : extract_text_from_bytes env bs req.mimeType = .ok t)
    (hne : pyStrip t ≠ "")
    (hpost : env.httpPost t q = .ok ⟨200, body⟩)
    (hbody : env.jsonLoads body = .ok (mkChoices c))
    (hcontent : env.jsonLoads c = .ok parsed) :
    (parse_resume env req headers).fst = .ok ⟨req.fileId, parsed⟩ ∧
    (∀ fields, parsed = .obj fields → jsonLookup fields "skills" = none →
      ∃ row, buildRow req.fileId parsed env.now = .ok row ∧ row.skills = Json.arr []) := by
  constructor
  · exact parse_resume_fst_ok env req headers q bs t parsed hfid htm hdl hex hne
      (call_groq_api_ok env t q body c parsed hpost hbody hcontent)
  · intro fields hf hnone
    subst hf
    refine ⟨_, rfl, ?_⟩
    show (jsonLookup fields "skills").getD (Json.arr []) = Json.arr []
    rw [hnone]
    rfl

/-- Witness for C10: the inference output `oddRecord` has none of the six
schema fields, yet is returned verbatim, while the persisted row defaults its
`skills` column to the empty array. -/
theorem parsed_data_passthrough_witness :
    ("f2" : String) ≠ "" ∧
    resolveTimeout (fun _ => none) = .ok 30 ∧
    oddEnv.download "f2" = .ok [67, 86] ∧
    extract_text_from_bytes oddEnv [67, 86] none = .ok "CV" ∧
    pyStrip "CV" ≠ "" ∧
    oddEnv.httpPost "CV" 30 = .ok ⟨200, "outer-body"⟩ ∧
    oddEnv.jsonLoads "outer-body" = .ok (mkChoices "inner-body") ∧
    oddEnv.jsonLoads "inner-body" = .ok oddRecord ∧
    ((parse_resume oddEnv ⟨"f2", none⟩ (fun _ => none)).fst = .ok ⟨"f2", oddRecord⟩ ∧
      (∀ fields, oddRecord = .obj fields → jsonLookup fields "skills" = none →
        ∃ row, buildRow "f2" oddRecord oddEnv.now = .ok row ∧ row.skills = Json.arr [])) :=
  ⟨by decide, rfl, rfl, rfl, by decide, rfl, rfl, rfl,
    parsed_data_passthrough oddEnv ⟨"f2", none⟩ (fun _ => none) 30 [67, 86] "CV"
      "outer-body" "inner-body" oddRecord (by decide) rfl rfl rfl (by decide) rfl rfl rfl⟩

end ResumeParser
